import Mathlib

/-!
Shallow embedding of the rat-api room/game engine.

Sources embedded here:
  * `src/rooms/models.py`        — the pydantic data model (authoritative field lists);
  * `src/rooms/redis_manager.py` — the Room Store (`RoomManager`);
  * `src/game/logic.py`          — the game state machine;
  * `src/sockets/game_events.py`, `src/sockets/player_events.py`,
    `src/sockets/room_events.py` — the live Socket.IO handlers
    (`src/sockets/events.py` is dead code: `src/sockets/server.py` imports only
    the split modules).

Modelling conventions:
  * Python dicts (`Room.players`, Redis hashes, vote tallies) are association
    lists `List (key × value)` preserving insertion order, with unique keys.
  * Float timestamps (`time.time()`) are opaque instants, modelled as a `Nat`
    parameter `now`; no claim depends on time arithmetic.
  * `random.choice(seq)` is modelled by an adversarially chosen natural `r`
    supplied per call site, selecting `seq[r % len(seq)]`.
  * Fallible Python code returns `Except PyError`; an `Except.error` models an
    uncaught exception raised at that point (later statements do not run,
    mirroring Python control flow).  Attribute lookups that the pydantic
    models of `models.py` cannot satisfy raise `AttributeError`.
-/

namespace RatApi

/-- A Python runtime exception raised by the embedded code. -/
inductive PyError
  | attributeError (obj attr : String)
  | valueError (msg : String)
  | keyError (key : String)
  deriving DecidableEq, Repr

/-- `str(e)` as the socket handlers emit it inside an `error` event
(the exact CPython rendering is abbreviated, apostrophes omitted). -/
def pyErrorMsg : PyError → String
  | .attributeError obj attr => "AttributeError: " ++ obj ++ " has no attribute " ++ attr
  | .valueError msg => msg
  | .keyError key => "KeyError: " ++ key

/-! ## Data model — src/rooms/models.py -/

/-- `RoomPhase` (models.py lines 7-13). -/
inductive RoomPhase
  | waiting
  | role_reveal
  | playing
  | voting
  | results
  deriving DecidableEq, Repr

/-- `PlayerRole` (models.py lines 16-19).  The enum declares exactly two
members: CIVILIAN and IMPOSTOR.  (`logic.py` also refers to
`PlayerRole.DETECTIVE` and `PlayerRole.JOKER`; those attribute lookups are
modelled below as the `AttributeError` they raise.) -/
inductive PlayerRole
  | civilian
  | impostor
  deriving DecidableEq, Repr

/-- `GameResult` (models.py lines 22-25). -/
inductive GameResult
  | civilians_win
  | impostor_wins
  deriving DecidableEq, Repr

/-- `Player` (models.py lines 28-45). -/
structure Player where
  id : String
  username : String
  user_id : Option Int := none
  is_ready : Bool := false
  role : Option PlayerRole := none
  word : Option String := none
  vote : Option String := none
  is_host : Bool := false
  wants_to_vote : Bool := false
  deriving DecidableEq, Repr, Inhabited

/-- `RoomSettings` (models.py lines 48-53).  The model declares exactly these
four fields — in particular there is no `category_ids`, `detective_enabled`,
`joker_enabled`, `voting_time`, `discussion_timer_enabled` or
`discussion_time` field. -/
structure RoomSettings where
  max_players : Nat := 8
  category_id : Int
  is_public : Bool := true
  password : Option String := none
  deriving DecidableEq, Repr

/-- `GameState` (models.py lines 56-63).  The model declares exactly these
fields — in particular there is no `detective_id`, `joker_id` or
`starting_player_id` field. -/
structure GameState where
  word : String
  impostor_id : String
  phase_start_time : Nat
  votes_submitted : Nat := 0
  result : Option GameResult := none
  most_voted_id : Option String := none
  deriving DecidableEq, Repr

/-- `Room` (models.py lines 66-86).  `players` is a Python dict
player-id → Player, modelled as an insertion-ordered association list.
The model declares exactly these fields — in particular there is no `word`,
`last_word` or `last_starting_player_id` field. -/
structure Room where
  id : String
  host_id : String
  settings : RoomSettings
  phase : RoomPhase := .waiting
  players : List (String × Player) := []
  game_state : Option GameState := none
  round_number : Nat := 0
  created_at : Nat
  deriving DecidableEq, Repr

/-- Python `key in dict` on the players dict. -/
def dictContains (ps : List (String × Player)) (k : String) : Bool :=
  ps.any (fun kv => kv.1 == k)

/-- Python `room.players[pid]` read (None when the key is absent —
call sites that would raise `KeyError` test this explicitly). -/
def find_player (ps : List (String × Player)) (pid : String) : Option Player :=
  (ps.find? (fun kv => kv.1 == pid)).map (fun kv => kv.2)

/-! ## Room Store — src/rooms/redis_manager.py -/

/-- The Redis hash `RoomManager._save_room` writes for `room:{id}`
(redis_manager.py lines 100-109).  `settings` is stored JSON-encoded and
`phase` as its enum value; both encodings are injective and are modelled by
the values themselves. `round_number` and `created_at` are stored via `str`. -/
structure RoomRecord where
  id : String
  host_id : String
  settings : RoomSettings
  phase : RoomPhase
  word : String
  round_number : Nat
  created_at : Nat
  deriving DecidableEq, Repr

/-- The attribute read `room.word` at redis_manager.py line 106.
`Room` (models.py lines 66-86) declares no field `word`, so the lookup
raises `AttributeError`. -/
def Room.getWord (_ : Room) : Except PyError String :=
  .error (.attributeError "Room" "word")

/-- `RoomManager._save_room` (redis_manager.py lines 92-121): builds the
`room_data` hash — whose `word` entry reads `room.word or ""` — and the
per-player hash.  Note the hash has no `game_state` entry: `game_state` is
never serialized.  Returns the pair of hashes that would be written. -/
def _save_room (room : Room) : Except PyError (RoomRecord × List (String × Player)) := do
  let w ← Room.getWord room
  .ok ({ id := room.id
         host_id := room.host_id
         settings := room.settings
         phase := room.phase
         word := w
         round_number := room.round_number
         created_at := room.created_at }, room.players)

/-- `RoomManager.update_room` (redis_manager.py lines 123-132): saves, then
maintains the public-rooms index.  The index update is unreachable whenever
`_save_room` raises and is not needed by any claim, so only the save is
modelled. -/
def update_room (room : Room) : Except PyError (RoomRecord × List (String × Player)) :=
  _save_room room

/-- Reconstruction performed by `RoomManager.get_room`
(redis_manager.py lines 73-90): the `room_dict` passed to `Room(**room_dict)`
carries keys id, host_id, settings, phase, players, word, round_number and
created_at — no `game_state` key, so pydantic defaults `game_state` to None,
and the unknown key `word` is ignored. -/
def parse_room (rec : RoomRecord) (players : List (String × Player)) : Room :=
  { id := rec.id
    host_id := rec.host_id
    settings := rec.settings
    phase := rec.phase
    players := players
    game_state := none
    round_number := rec.round_number
    created_at := rec.created_at }

/-- `RoomManager.get_room` (redis_manager.py lines 45-90) over a store of
written records: exact key match first, otherwise a scan matching the id
case-insensitively. -/
def get_room (store : List (String × RoomRecord × List (String × Player)))
    (room_id : String) : Option Room :=
  match store.find? (fun kv => kv.1 == room_id) with
  | some kv => some (parse_room kv.2.1 kv.2.2)
  | none =>
    match store.find? (fun kv => kv.1.toLower == room_id.toLower) with
    | some kv => some (parse_room kv.2.1 kv.2.2)
    | none => none

/-- Outcome of `RoomManager.remove_player` (redis_manager.py lines 156-171). -/
inductive RemoveResult
  | noRoom
  | deleted
  | saved (r : Room)
  | saveFailed (r : Room) (e : PyError)
  deriving DecidableEq, Repr

/-- `RoomManager.remove_player` (redis_manager.py lines 156-171), applied to
the result of its initial `get_room` read: returns None (`noRoom`) when the
room or player is missing; deletes the player; when the room became empty or
the removed player was the host, calls `delete_room` and returns None
(`deleted`); otherwise attempts `update_room`, whose raised exception is
recorded as `saveFailed` (no Redis write happens in that case, since
`_save_room` raises while building `room_data`). -/
def remove_player (roomOpt : Option Room) (player_id : String) : RemoveResult :=
  match roomOpt with
  | none => .noRoom
  | some room =>
    if ¬ dictContains room.players player_id then .noRoom
    else
      let players2 := room.players.filter (fun kv => kv.1 ≠ player_id)
      if players2.isEmpty ∨ player_id = room.host_id then .deleted
      else
        let room2 : Room := { room with players := players2 }
        match update_room room2 with
        | .ok _ => .saved room2
        | .error e => .saveFailed room2 e

/-- `RoomManager.add_player` (redis_manager.py lines 145-154): inserts the
player into the fetched room and attempts `update_room`. -/
def add_player (roomOpt : Option Room) (player : Player) :
    Except PyError (Option Room) :=
  match roomOpt with
  | none => .ok none
  | some room =>
    let players2 :=
      if dictContains room.players player.id then
        room.players.map (fun kv => if kv.1 == player.id then (kv.1, player) else kv)
      else room.players ++ [(player.id, player)]
    let room2 : Room := { room with players := players2 }
    (update_room room2).map (fun _ => some room2)

/-! ## Game state machine — src/game/logic.py -/

/-- `random.choice(seq)` on a list of indices: the draw is an adversarially
chosen natural `r`, the element taken is `seq[r % len(seq)]` (every element is
reachable; call sites only use it on non-empty pools). -/
def pyChoice (r : Nat) (seq : List Nat) : Nat :=
  seq.getD (r % seq.length) 0

/-- The attribute lookup `PlayerRole.DETECTIVE` (logic.py line 145):
`PlayerRole` (models.py lines 16-19) declares only CIVILIAN and IMPOSTOR, so
the lookup raises `AttributeError`. -/
def PlayerRole_DETECTIVE : Except PyError PlayerRole :=
  .error (.attributeError "PlayerRole" "DETECTIVE")

/-- The attribute lookup `PlayerRole.JOKER` (logic.py line 147): the enum has
no such member either. -/
def PlayerRole_JOKER : Except PyError PlayerRole :=
  .error (.attributeError "PlayerRole" "JOKER")

/-- The role-assignment loop body of `assign_roles`
(logic.py lines 141-153) for one player. -/
def assign_role_one (impostor_id : String) (detective_id joker_id : Option String)
    (p : Player) : Except PyError Player := do
  let role ←
    if p.id == impostor_id then .ok PlayerRole.impostor
    else if detective_id == some p.id then PlayerRole_DETECTIVE
    else if joker_id == some p.id then PlayerRole_JOKER
    else .ok PlayerRole.civilian
  .ok { p with role := some role, vote := none, wants_to_vote := false, is_ready := false }

/-- `assign_roles` (logic.py lines 93-155).  `r_imp`, `r_det`, `r_jok` model
the draws made by the three `random.choice` calls (impostor, then detective,
then joker).  Returns `(updated_players, impostor_id, detective_id,
joker_id)`; raises exactly where the Python code raises. -/
def assign_roles (r_imp r_det r_jok : Nat) (players : List Player)
    (exclude_player_id : Option String)
    (detective_enabled joker_enabled : Bool) :
    Except PyError (List Player × String × Option String × Option String) :=
  if players.length < 3 then
    .error (.valueError "Need at least 3 players to start game")
  else
    let available0 := List.range players.length
    let pool0 :=
      match exclude_player_id with
      | some ex =>
        if 1 < players.length then
          match players.findIdx? (fun p => p.id == ex) with
          | some i => available0.erase i
          | none => available0
        else available0
      | none => available0
    let impostor_pool := if pool0.isEmpty then available0 else pool0
    let impostor_index := pyChoice r_imp impostor_pool
    let impostor_id := (players.getD impostor_index default).id
    let available1 := available0.erase impostor_index
    let detPick :=
      if detective_enabled && !available1.isEmpty then
        some (pyChoice r_det available1)
      else none
    let detective_id := detPick.map (fun i => (players.getD i default).id)
    let available2 :=
      match detPick with
      | some i => available1.erase i
      | none => available1
    let jokPick :=
      if joker_enabled && !available2.isEmpty then
        some (pyChoice r_jok available2)
      else none
    let joker_id := jokPick.map (fun i => (players.getD i default).id)
    match players.mapM (assign_role_one impostor_id detective_id joker_id) with
    | .ok updated => .ok (updated, impostor_id, detective_id, joker_id)
    | .error e => .error e

/-- The flag write `room.players[player_id].wants_to_vote = True`
(logic.py line 252). -/
def set_wants_to_vote (ps : List (String × Player)) (player_id : String) :
    List (String × Player) :=
  ps.map (fun kv =>
    if kv.1 == player_id then (kv.1, { kv.2 with wants_to_vote := true }) else kv)

/-- `sum(1 for p in room.players.values() if p.wants_to_vote)`
(logic.py line 256). -/
def wants_to_vote_count (ps : List (String × Player)) : Nat :=
  (ps.filter (fun kv => kv.2.wants_to_vote)).length

/-- `request_voting` (logic.py lines 239-268), up to (but not including) its
final `await RoomManager.update_room(room)`: the in-memory transition of the
room object together with the returned `should_start_voting` flag.  The
persistence call is `update_room` above, which raises for every room (see
`_save_room`); the transition itself is what this definition captures. -/
def request_voting (room : Room) (player_id : String) (now : Nat) :
    Except PyError (Room × Bool) :=
  if room.phase ≠ RoomPhase.playing then .ok (room, false)
  else if ¬ dictContains room.players player_id then .ok (room, false)
  else
    let players2 := set_wants_to_vote room.players player_id
    let total_players := room.players.length
    let cnt := wants_to_vote_count players2
    let majority_threshold := total_players / 2 + 1
    if majority_threshold ≤ cnt then
      match room.game_state with
      | none => .error (.attributeError "NoneType" "phase_start_time")
      | some gs =>
        let gs2 : GameState := { gs with phase_start_time := now }
        .ok ({ room with
                players := players2
                phase := RoomPhase.voting
                game_state := some gs2 }, true)
    else .ok ({ room with players := players2 }, false)

/-- `transition_to_playing` (logic.py lines 230-236), again up to the final
`update_room`: sets the phase and resets `phase_start_time` (raising when
`game_state` is None, as `room.game_state.phase_start_time` would). -/
def transition_to_playing (room : Room) (now : Nat) : Except PyError Room :=
  match room.game_state with
  | none => .error (.attributeError "NoneType" "phase_start_time")
  | some gs =>
    let gs2 : GameState := { gs with phase_start_time := now }
    .ok { room with phase := RoomPhase.playing, game_state := some gs2 }

/-- One step of the `vote_counts` accumulation
(logic.py lines 311-314): `vote_counts[v] = vote_counts.get(v, 0) + 1`. -/
def bump_vote (acc : List (String × Nat)) (target : String) : List (String × Nat) :=
  if acc.any (fun kv => kv.1 == target) then
    acc.map (fun kv => if kv.1 == target then (kv.1, kv.2 + 1) else kv)
  else acc ++ [(target, 1)]

/-- One loop iteration of the tally (logic.py lines 312-314): a truthy vote
is counted (`if player.vote:` skips both None and the empty string). -/
def vote_step (acc : List (String × Nat)) (kv : String × Player) : List (String × Nat) :=
  match kv.2.vote with
  | some t => if t = "" then acc else bump_vote acc t
  | none => acc

/-- The `vote_counts` dict of `calculate_results` (logic.py lines 311-314):
iterate the players in insertion order, counting each truthy vote. -/
def count_votes (ps : List (String × Player)) : List (String × Nat) :=
  ps.foldl vote_step []

/-- `max(vote_counts.values())` (logic.py line 323), for a non-empty tally
(all counts are ≥ 1, so folding from 0 is the Python maximum). -/
def max_count (vc : List (String × Nat)) : Nat :=
  (vc.map (fun kv => kv.2)).foldl max 0

/-- The tie-break sort key `room.players[pid].username.lower()`
(logic.py line 328); total for statement purposes, the embedding itself
raises `KeyError` exactly where Python would. -/
def username_lower (ps : List (String × Player)) (pid : String) : String :=
  ((find_player ps pid).map (fun p => p.username.toLower)).getD ""

/-- The decorate step of the tie-break sort (logic.py line 328): evaluate the
sort key `room.players[pid].username.lower()` for one element, raising
`KeyError` exactly where Python indexing would. -/
def decorate_key (ps : List (String × Player)) (pid : String) :
    Except PyError (String × String) :=
  match find_player ps pid with
  | some p => Except.ok (pid, p.username.toLower)
  | none => Except.error (PyError.keyError pid)

/-- Lines 323-330 of logic.py for a non-empty tally: `max_votes`, the list of
tied ids in tally insertion order, the stable tie-break sort on the
lowercased username when there is more than one (CPython `list.sort(key=...)`
decorates with the key and stable-sorts, modelled by `mergeSort`, which is
stable, on the decorated list), returning the sorted candidate list whose
head is `most_voted[0]`. -/
def pick_most_voted (ps : List (String × Player)) (vc : List (String × Nat)) :
    Except PyError (List String) :=
  let max_votes := max_count vc
  let most_voted0 := (vc.filter (fun kv => kv.2 == max_votes)).map (fun kv => kv.1)
  if 1 < most_voted0.length then
    match most_voted0.mapM (decorate_key ps) with
    | .error e => .error e
    | .ok keyed =>
      .ok ((keyed.mergeSort (fun a b => decide (a.2 ≤ b.2))).map (fun kv => kv.1))
  else .ok most_voted0

/-- `calculate_results` (logic.py lines 299-347), up to its final
`await RoomManager.update_room(room)`: tally the votes, pick the most voted
via `pick_most_voted`, decide the result and move the phase to RESULTS. -/
def calculate_results (room : Room) (now : Nat) : Except PyError Room :=
  if room.phase ≠ RoomPhase.voting then .ok room
  else
    let vote_counts := count_votes room.players
    match room.game_state with
    | none => .error (.attributeError "NoneType" "result")
    | some gs =>
      if vote_counts.isEmpty then
        let gs2 : GameState := { gs with result := some GameResult.impostor_wins,
                                         most_voted_id := none, phase_start_time := now }
        .ok { room with phase := RoomPhase.results, game_state := some gs2 }
      else
        match pick_most_voted room.players vote_counts with
        | .error e => .error e
        | .ok [] => .error (.keyError "unreachable")
        | .ok (m :: _) =>
          let res := if m = gs.impostor_id then GameResult.civilians_win
                     else GameResult.impostor_wins
          let gs2 : GameState := { gs with most_voted_id := some m,
                                           result := some res, phase_start_time := now }
          .ok { room with phase := RoomPhase.results, game_state := some gs2 }

/-! ## Phase scheduler — src/sockets/game_events.py lines 309-346 -/

/-- The phase a `schedule_phase_transition(room_id, next_phase, delay)` timer
was scheduled from, per the guards at game_events.py lines 321, 329 and 342:
a PLAYING timer acts only from ROLE_REVEAL, a VOTING timer only from PLAYING,
a RESULTS timer only from VOTING; no timer targets any other phase. -/
def source_phase : RoomPhase → Option RoomPhase
  | RoomPhase.playing => some RoomPhase.role_reveal
  | RoomPhase.voting => some RoomPhase.playing
  | RoomPhase.results => some RoomPhase.voting
  | _ => none

/-- The body of `schedule_phase_transition` after its `asyncio.sleep`
(game_events.py lines 316-346), applied to the re-read room: `none` means the
function returned without performing any mutation; `some act` is the guarded
action it runs (each action ends in an `update_room` persistence attempt,
whose outcome is the `Except`). -/
def schedule_phase_transition_fire (roomOpt : Option Room) (next_phase : RoomPhase)
    (now : Nat) : Option (Except PyError Room) :=
  match roomOpt with
  | none => none
  | some room =>
    if next_phase = RoomPhase.playing ∧ room.phase = RoomPhase.role_reveal then
      some (do
        let r ← transition_to_playing room now
        let _ ← update_room r
        Except.ok r)
    else if next_phase = RoomPhase.voting ∧ room.phase = RoomPhase.playing then
      let room2 : Room := { room with
        phase := RoomPhase.voting
        game_state := room.game_state.map (fun gs => { gs with phase_start_time := now }) }
      some ((update_room room2).map (fun _ => room2))
    else if next_phase = RoomPhase.results ∧ room.phase = RoomPhase.voting then
      some (do
        let r ← calculate_results room now
        let _ ← update_room r
        Except.ok r)
    else none

/-! ## Presentation filter — src/sockets/game_events.py lines 272-306 -/

/-- The `game_state` sub-dict of `Room.dict()` (models.py lines 77-86):
`impostor_id` becomes nullable on the wire because the presentation filter
overwrites it with None. -/
structure GameStateDict where
  word : String
  impostor_id : Option String
  phase_start_time : Nat
  votes_submitted : Nat
  result : Option GameResult
  most_voted_id : Option String
  deriving DecidableEq, Repr

/-- `GameState.dict()` as embedded in `Room.dict()`. -/
def GameState.toDict (gs : GameState) : GameStateDict :=
  { word := gs.word
    impostor_id := some gs.impostor_id
    phase_start_time := gs.phase_start_time
    votes_submitted := gs.votes_submitted
    result := gs.result
    most_voted_id := gs.most_voted_id }

/-- The per-viewer payload emitted as `room_state`. -/
structure PersonalizedState where
  id : String
  host_id : String
  settings : RoomSettings
  phase : RoomPhase
  players : List (String × Player)
  game_state : Option GameStateDict
  round_number : Nat
  created_at : Nat
  deriving DecidableEq, Repr

/-- The payload `broadcast_personalized_game_state` (game_events.py lines
272-306) emits to the connection of viewer `viewer_id` (the code emits only
to sessions whose `player_id` is a key of `room.players`): every player dict
other than the viewer's own gets `role = None` and `word = None`
(lines 296-298), and `game_state["impostor_id"]` is overwritten with None
whenever the phase is not RESULTS (lines 303-304).  The other
`game_state` entries — `word` included — are copied unchanged. -/
def personalized_room_state (room : Room) (viewer_id : String) : PersonalizedState :=
  { id := room.id
    host_id := room.host_id
    settings := room.settings
    phase := room.phase
    players := room.players.map (fun kv =>
      if kv.1 == viewer_id then kv
      else (kv.1, { kv.2 with role := none, word := none }))
    game_state := (room.game_state.map GameState.toDict).map (fun gd =>
      if room.phase ≠ RoomPhase.results then { gd with impostor_id := none } else gd)
    round_number := room.round_number
    created_at := room.created_at }

/-! ## Player events — src/sockets/player_events.py -/

/-- A Socket.IO session entry `sessions[sid]`. -/
structure Session where
  player_id : Option String
  room_id : Option String
  username : Option String
  deriving DecidableEq, Repr

/-- Python `str.strip()`: drop whitespace from both ends. -/
def pyStrip (s : String) : String :=
  String.mk (((s.data.dropWhile Char.isWhitespace).reverse.dropWhile
    Char.isWhitespace).reverse)

/-- The method lookup `RoomManager.update_player_username`
(player_events.py line 47): `RoomManager` (redis_manager.py) defines
`create_room`, `get_room`, `_save_room`, `update_room`, `delete_room`,
`add_player`, `remove_player`, `update_player`, `get_public_rooms` and the
public-rooms index helpers — no `update_player_username` anywhere in the
repository, so the attribute lookup raises `AttributeError`. -/
def RoomManager_update_player_username : Except PyError Room :=
  .error (.attributeError "RoomManager" "update_player_username")

/-- What the `update_username` handler did: which event it emitted to the
requesting client, paired with whether any store write happened. -/
inductive UpdateUsernameOutcome
  | errorEvent (msg : String)
  | updated (new_username : String)
  deriving DecidableEq, Repr

/-- The `update_username` handler (player_events.py lines 10-78): session
check, `data.get("new_username", "").strip()`, the emptiness and length
validations, the room/player-session check, then the store update — whose
`AttributeError` is caught by the surrounding `except` and emitted as an
`error` event (line 78).  The `Bool` records whether the store was written. -/
def update_username_handler (sessionOpt : Option Session)
    (data_new_username : Option String) : UpdateUsernameOutcome × Bool :=
  match sessionOpt with
  | none => (.errorEvent "No session found", false)
  | some s =>
    let new_username := pyStrip (data_new_username.getD "")
    if new_username = "" then (.errorEvent "Username cannot be empty", false)
    else if 20 < new_username.length then
      (.errorEvent "Username too long (max 20 characters)", false)
    else if s.room_id.getD "" = "" ∨ s.player_id.getD "" = "" then
      (.errorEvent "Not in a room", false)
    else
      match RoomManager_update_player_username with
      | .error e => (.errorEvent (pyErrorMsg e), false)
      | .ok _ => (.updated new_username, true)

/-! ## Room events — src/sockets/room_events.py -/

/-- The check `room.settings.password and room.settings.password != password`
(room_events.py line 60): an unset or empty stored password is falsy and
skips the comparison. -/
def password_rejects (stored : Option String) (given : Option String) : Bool :=
  match stored with
  | none => false
  | some pw => pw ≠ "" && given ≠ some pw

/-- What the `join_room` handler did for the requesting connection. -/
inductive JoinOutcome
  | errorEvent (msg : String)
  | reconnect (player_id : String)
  | joined (player_id : String)
  deriving DecidableEq, Repr

/-- The `join_room` handler (room_events.py lines 16-120), applied to the
result of its `get_room` read: field validation; room lookup; then the scan
for an existing player with the same username (lines 51-56, first match in
insertion order).  When one exists, the password check (guarded by
`if not existing_player`, lines 59-63) and the capacity check (inside the
`else` branch, lines 70-73) are both skipped and the session is attached to
the existing player id (`reconnect`).  Otherwise password and capacity are
checked, a fresh player is created and `RoomManager.add_player` runs; the
exception that its `update_room` raises is caught by the handler and emitted
as an `error` event. -/
def join_room_handler (roomOpt : Option Room) (room_id username password : Option String)
    (fresh_id : String) : JoinOutcome :=
  if room_id.getD "" = "" ∨ username.getD "" = "" then
    .errorEvent "room_id and username required"
  else
    match roomOpt with
    | none => .errorEvent "Room not found"
    | some room =>
      let uname := username.getD ""
      match room.players.find? (fun kv => kv.2.username == uname) with
      | some kv => .reconnect kv.1
      | none =>
        if password_rejects room.settings.password password then
          .errorEvent "Invalid password"
        else if room.settings.max_players ≤ room.players.length then
          .errorEvent "Room is full"
        else
          match add_player (some room) { id := fresh_id, username := uname,
                                         is_host := false } with
          | .error e => .errorEvent (pyErrorMsg e)
          | .ok _ => .joined fresh_id

/-! ## Concrete sample data for the witnesses -/

/-- A minimal settings value (category 1, defaults elsewhere). -/
def sample_settings : RoomSettings := { category_id := 1 }

/-- A session attached to player p1 in room r1. -/
def sample_session : Session :=
  { player_id := some "p1", room_id := some "r1", username := some "OldName" }

/-- A three-player waiting room hosted by h1. -/
def sample_room3 : Room :=
  { id := "Ab12", host_id := "h1", settings := sample_settings
    players := [("h1", { id := "h1", username := "Host", is_host := true }),
                ("p2", { id := "p2", username := "Bob" }),
                ("p3", { id := "p3", username := "Cy" })]
    created_at := 0 }

/-- A five-player room in the VOTING phase with a 2-2-1 vote split: p3 and p1
are tied at two votes, p5 has one vote, and the impostor is p1.  Lowercased
usernames order the tie as bob < zoe, so p3 is most voted. -/
def sample_voting_room : Room :=
  { id := "r5", host_id := "p1", settings := sample_settings
    phase := RoomPhase.voting
    players :=
      [("p1", { id := "p1", username := "zoe", vote := some "p3" }),
       ("p2", { id := "p2", username := "Amy", vote := some "p3" }),
       ("p3", { id := "p3", username := "BOB", vote := some "p1" }),
       ("p4", { id := "p4", username := "Cal", vote := some "p1" }),
       ("p5", { id := "p5", username := "dan", vote := some "p5" })]
    game_state := some { word := "cat", impostor_id := "p1", phase_start_time := 0 }
    created_at := 0 }

/-- The same five players with every vote cleared, still in VOTING. -/
def sample_voting_room_no_votes : Room :=
  { sample_voting_room with
    players := sample_voting_room.players.map
      (fun kv => (kv.1, { kv.2 with vote := none })) }

/-- A five-player PLAYING room in which only p1 has requested voting so far. -/
def sample_playing_room_1req : Room :=
  { sample_voting_room with
    phase := RoomPhase.playing
    players := sample_voting_room.players.map
      (fun kv => (kv.1, { kv.2 with vote := none, wants_to_vote := kv.1 == "p1" })) }

/-- The same PLAYING room in which p1 and p3 have both requested voting. -/
def sample_playing_room_2req : Room :=
  { sample_voting_room with
    phase := RoomPhase.playing
    players := sample_voting_room.players.map
      (fun kv =>
        (kv.1, { kv.2 with vote := none, wants_to_vote := kv.1 == "p1" || kv.1 == "p3" })) }

/-- A mid-game room (ROLE_REVEAL) with assigned roles and words: p1 is the
impostor (word None), p2 a civilian holding the secret word. -/
def sample_reveal_room : Room :=
  { id := "g1", host_id := "p1", settings := sample_settings
    phase := RoomPhase.role_reveal
    players :=
      [("p1", { id := "p1", username := "zoe", role := some PlayerRole.impostor }),
       ("p2", { id := "p2", username := "Amy", role := some PlayerRole.civilian,
                word := some "cat" }),
       ("p3", { id := "p3", username := "BOB", role := some PlayerRole.civilian,
                word := some "cat" })]
    game_state := some { word := "cat", impostor_id := "p1", phase_start_time := 0 }
    created_at := 0 }

/-- A full, password-protected waiting room containing a player named Alice. -/
def sample_locked_room : Room :=
  { id := "w1", host_id := "h1"
    settings := { category_id := 1, max_players := 3, is_public := false,
                  password := some "sec" }
    players := [("h1", { id := "h1", username := "Hank", is_host := true }),
                ("q2", { id := "q2", username := "Alice" }),
                ("q3", { id := "q3", username := "Burt" })]
    created_at := 0 }

/-! ## Theorems -/

/-- Claim C1: the Room Store round-trip (save then re-load by id, including a
differently-cased id) cannot yield an equal Room: `_save_room` raises
`AttributeError` reading `room.word` — `Room` in models.py has no `word`
field — for every room whatsoever, so no save ever completes; moreover the
stored record has no game_state entry, so `get_room`'s reconstruction always
carries `game_state = none` regardless of what was saved. -/
theorem save_room_round_trip_fails :
    (∀ room : Room, _save_room room = .error (.attributeError "Room" "word"))
    ∧ (∀ (rec : RoomRecord) (ps : List (String × Player)),
        (parse_room rec ps).game_state = none) :=
  ⟨fun _ => rfl, fun _ _ => rfl⟩

/-- Claim C2: with detective enabled, `assign_roles` on a three-player room
raises `AttributeError` for every possible sequence of random draws, because
the loop assigns `PlayerRole.DETECTIVE` and models.py's `PlayerRole` enum has
no such member — instead of assigning a detective distinct from the impostor
as claimed. -/
theorem assign_roles_detective_crashes (r_imp r_det r_jok : Nat) :
    assign_roles r_imp r_det r_jok
      [{ id := "p1", username := "A" }, { id := "p2", username := "B" },
       { id := "p3", username := "C" }] none true false
    = .error (.attributeError "PlayerRole" "DETECTIVE") := by
  have h1 : r_imp % 3 = 0 ∨ r_imp % 3 = 1 ∨ r_imp % 3 = 2 := by omega
  have h2 : r_det % 2 = 0 ∨ r_det % 2 = 1 := by omega
  rcases h1 with h1 | h1 | h1 <;> rcases h2 with h2 | h2 <;>
    simp [assign_roles, pyChoice, assign_role_one, h1, h2,
      show List.range 3 = [0, 1, 2] from rfl, PlayerRole_DETECTIVE] <;> rfl

/-- Claim C5: under a successful room read with the player present,
`remove_player` deletes the room and returns not-found exactly when the
players dict would be empty after the removal or the removed player was the
host; and in every other outcome the room it hands to the store has a
non-empty players dict, so a room with zero players is never persisted. -/
theorem remove_player_spec (room : Room) (pid : String)
    (hmem : dictContains room.players pid = true) :
    (remove_player (some room) pid = .deleted
      ↔ ((room.players.filter (fun kv => kv.1 ≠ pid)).isEmpty ∨ pid = room.host_id))
    ∧ (∀ r e, remove_player (some room) pid = .saveFailed r e → r.players ≠ [])
    ∧ (∀ r, remove_player (some room) pid = .saved r → r.players ≠ []) := by
  have hbody : remove_player (some room) pid =
      (if (room.players.filter (fun kv => kv.1 ≠ pid)).isEmpty ∨ pid = room.host_id
       then RemoveResult.deleted
       else RemoveResult.saveFailed
         { room with players := room.players.filter (fun kv => kv.1 ≠ pid) }
         (PyError.attributeError "Room" "word")) := by
    simp only [remove_player, hmem, not_true, if_false, eq_self_iff_true, not_true_eq_false,
      ite_false]
    split
    · rfl
    · rfl
  rw [hbody]
  by_cases hc : (room.players.filter (fun kv => kv.1 ≠ pid)).isEmpty ∨ pid = room.host_id
  · rw [if_pos hc]
    refine ⟨iff_of_true rfl hc, ?_, ?_⟩
    · intro r e hr
      cases hr
    · intro r hr
      cases hr
  · rw [if_neg hc]
    refine ⟨iff_of_false (fun h => RemoveResult.noConfusion h) hc, ?_, ?_⟩
    · intro r e hr
      cases hr
      have hne : ¬ (room.players.filter (fun kv => kv.1 ≠ pid)).isEmpty = true :=
        fun h => hc (Or.inl h)
      simpa [List.isEmpty_iff] using hne
    · intro r hr
      cases hr

/-- Witness for `remove_player_spec`: removing non-host p2 from the concrete
three-player room. -/
theorem remove_player_spec_witness :
    dictContains sample_room3.players "p2" = true
    ∧ ((remove_player (some sample_room3) "p2" = .deleted
        ↔ ((sample_room3.players.filter (fun kv => kv.1 ≠ "p2")).isEmpty
            ∨ "p2" = sample_room3.host_id))
      ∧ (∀ r e, remove_player (some sample_room3) "p2" = .saveFailed r e → r.players ≠ [])
      ∧ (∀ r, remove_player (some sample_room3) "p2" = .saved r → r.players ≠ [])) :=
  ⟨by decide, remove_player_spec sample_room3 "p2" (by decide)⟩

/-- Claim C7: a fired phase timer whose re-read room is no longer in the phase
the timer was scheduled from (PLAYING timers from ROLE_REVEAL, VOTING timers
from PLAYING, RESULTS timers from VOTING) performs no mutation at all. -/
theorem schedule_phase_transition_guard (room : Room) (next_phase : RoomPhase) (now : Nat)
    (h : source_phase next_phase ≠ some room.phase) :
    schedule_phase_transition_fire (some room) next_phase now = none := by
  cases next_phase <;> simp [source_phase] at h ⊢ <;>
    simp [schedule_phase_transition_fire] <;>
    intro hc <;> exact absurd hc.symm h

/-- Witness for `schedule_phase_transition_guard`: a ROLE_REVEAL→PLAYING
timer firing after the room has already reached VOTING does nothing. -/
theorem schedule_phase_transition_guard_witness :
    source_phase RoomPhase.playing ≠ some sample_voting_room.phase
    ∧ schedule_phase_transition_fire (some sample_voting_room) RoomPhase.playing 3 = none :=
  ⟨by decide, schedule_phase_transition_guard sample_voting_room RoomPhase.playing 3 (by decide)⟩

/-- Claim C8: `update_username` rejects a blank (after stripping) or over-long
name with an `error` event and touches nothing; but for a valid name it also
only emits an `error` event and never updates the stored username, because it
calls `RoomManager.update_player_username`, which does not exist — the
claimed update never happens (the `Bool` component records that no store
write occurred in any of the three runs). -/
theorem update_username_never_updates :
    (update_username_handler (some sample_session) (some "   ")
       = (.errorEvent "Username cannot be empty", false))
    ∧ (update_username_handler (some sample_session) (some "abcdefghijklmnopqrstu")
       = (.errorEvent "Username too long (max 20 characters)", false))
    ∧ (update_username_handler (some sample_session) (some "Alice")
       = (.errorEvent "AttributeError: RoomManager has no attribute update_player_username",
          false)) :=
  ⟨rfl, rfl, rfl⟩

/-- Claim C4: the per-viewer projection nulls `role` and `word` of every
player other than the viewer, keeps the viewer's own entry (hence their own
role and word) unchanged, and nulls `game_state.impostor_id` whenever the
phase is not RESULTS.  The hypothesis restricts to viewers the code actually
emits to (sessions whose player id is in the room). -/
theorem personalized_state_redacts_secrets (room : Room) (viewer : String)
    (hview : dictContains room.players viewer = true) :
    (∀ kv ∈ (personalized_room_state room viewer).players,
        kv.1 ≠ viewer → kv.2.role = none ∧ kv.2.word = none)
    ∧ (∀ kv ∈ room.players, kv.1 = viewer →
        kv ∈ (personalized_room_state room viewer).players)
    ∧ (room.phase ≠ RoomPhase.results →
        ∀ gd, (personalized_room_state room viewer).game_state = some gd →
          gd.impostor_id = none) := by
  refine ⟨?_, ?_, ?_⟩
  · intro kv hkv hne
    obtain ⟨x, hx, hfx⟩ := List.mem_map.mp hkv
    by_cases hxv : x.1 == viewer
    · rw [if_pos hxv] at hfx
      exact absurd (hfx ▸ (beq_iff_eq.mp hxv)) hne
    · rw [if_neg hxv] at hfx
      rw [← hfx]
      exact ⟨rfl, rfl⟩
  · intro kv hkv hkv1
    have : (if kv.1 == viewer then kv
            else (kv.1, { kv.2 with role := none, word := none })) = kv := by
      rw [if_pos (by simp [hkv1])]
    exact this ▸ List.mem_map_of_mem _ hkv
  · intro hph gd hgd
    cases hgs : room.game_state with
    | none => simp [personalized_room_state, hgs] at hgd
    | some gs =>
      simp [personalized_room_state, hgs, hph] at hgd
      rw [← hgd]

/-- Witness for `personalized_state_redacts_secrets`: civilian p2 viewing the
concrete mid-game room. -/
theorem personalized_state_redacts_secrets_witness :
    dictContains sample_reveal_room.players "p2" = true
    ∧ ((∀ kv ∈ (personalized_room_state sample_reveal_room "p2").players,
          kv.1 ≠ "p2" → kv.2.role = none ∧ kv.2.word = none)
      ∧ (∀ kv ∈ sample_reveal_room.players, kv.1 = "p2" →
          kv ∈ (personalized_room_state sample_reveal_room "p2").players)
      ∧ (sample_reveal_room.phase ≠ RoomPhase.results →
          ∀ gd, (personalized_room_state sample_reveal_room "p2").game_state = some gd →
            gd.impostor_id = none)) :=
  ⟨by decide, personalized_state_redacts_secrets sample_reveal_room "p2" (by decide)⟩

/-- Claim C9: the projection leaves `game_state.word` intact — every viewer's
payload, the impostor's included, carries the secret word inside
`game_state`, whatever the phase. -/
theorem personalized_state_keeps_game_word (room : Room) (viewer : String)
    (gs : GameState) (hgs : room.game_state = some gs) :
    ∃ gd, (personalized_room_state room viewer).game_state = some gd
      ∧ gd.word = gs.word := by
  by_cases h : room.phase = RoomPhase.results <;>
    simp [personalized_room_state, hgs, GameState.toDict, h]

/-- Witness for `personalized_state_keeps_game_word`: the impostor p1 — whose
own player `word` field is null — still receives the secret word in
`game_state.word`. -/
theorem personalized_state_keeps_game_word_witness :
    sample_reveal_room.game_state
      = some { word := "cat", impostor_id := "p1", phase_start_time := 0 }
    ∧ (find_player sample_reveal_room.players "p1").map (fun p => p.word) = some none
    ∧ (∃ gd, (personalized_room_state sample_reveal_room "p1").game_state = some gd
        ∧ gd.word = "cat") :=
  ⟨rfl, by decide, personalized_state_keeps_game_word sample_reveal_room "p1" _ rfl⟩

/-- Claim C6: in the PLAYING phase `request_voting` records the request and
moves the room to VOTING exactly when the number of players with
`wants_to_vote` set reaches `floor(n/2) + 1` where `n` is the player count. -/
theorem request_voting_threshold (room : Room) (pid : String) (gs : GameState) (now : Nat)
    (hphase : room.phase = RoomPhase.playing)
    (hmem : dictContains room.players pid = true)
    (hgs : room.game_state = some gs) :
    ∃ room2 started,
      request_voting room pid now = .ok (room2, started)
      ∧ (started = true
          ↔ room.players.length / 2 + 1
              ≤ wants_to_vote_count (set_wants_to_vote room.players pid))
      ∧ (room2.phase = RoomPhase.voting
          ↔ room.players.length / 2 + 1
              ≤ wants_to_vote_count (set_wants_to_vote room.players pid)) := by
  have heq : request_voting room pid now =
      (if room.players.length / 2 + 1 ≤ wants_to_vote_count (set_wants_to_vote room.players pid)
       then Except.ok ({ room with players := set_wants_to_vote room.players pid, phase := RoomPhase.voting, game_state := some { gs with phase_start_time := now } }, true)
       else Except.ok ({ room with players := set_wants_to_vote room.players pid }, false)) := by
    simp only [request_voting, hphase, hmem, hgs, not_true, if_false, ite_false,
      eq_self_iff_true, not_true_eq_false, ne_eq]
  rw [heq]
  by_cases hth : room.players.length / 2 + 1
      ≤ wants_to_vote_count (set_wants_to_vote room.players pid)
  · rw [if_pos hth]
    exact ⟨_, _, rfl, iff_of_true rfl hth, iff_of_true rfl hth⟩
  · rw [if_neg hth]
    refine ⟨_, _, rfl, iff_of_false (by simp) hth, iff_of_false ?_ hth⟩
    show ¬ room.phase = RoomPhase.voting
    rw [hphase]
    intro h
    cases h

/-- Witness for `request_voting_threshold`: with 5 players, p2's request is
the second — count 2, below the threshold 3 = ⌊5/2⌋+1, phase stays PLAYING —
and then the third — count 3, phase moves to VOTING. -/
theorem request_voting_threshold_witness :
    (sample_playing_room_1req.phase = RoomPhase.playing
      ∧ dictContains sample_playing_room_1req.players "p2" = true
      ∧ sample_playing_room_1req.game_state
          = some { word := "cat", impostor_id := "p1", phase_start_time := 0 }
      ∧ wants_to_vote_count (set_wants_to_vote sample_playing_room_1req.players "p2") = 2
      ∧ (∃ room2 started,
          request_voting sample_playing_room_1req "p2" 9 = .ok (room2, started)
          ∧ (started = true
              ↔ sample_playing_room_1req.players.length / 2 + 1
                  ≤ wants_to_vote_count (set_wants_to_vote sample_playing_room_1req.players "p2"))
          ∧ (room2.phase = RoomPhase.voting
              ↔ sample_playing_room_1req.players.length / 2 + 1
                  ≤ wants_to_vote_count (set_wants_to_vote sample_playing_room_1req.players "p2"))))
    ∧ (sample_playing_room_2req.phase = RoomPhase.playing
      ∧ dictContains sample_playing_room_2req.players "p2" = true
      ∧ sample_playing_room_2req.game_state
          = some { word := "cat", impostor_id := "p1", phase_start_time := 0 }
      ∧ wants_to_vote_count (set_wants_to_vote sample_playing_room_2req.players "p2") = 3
      ∧ (∃ room2 started,
          request_voting sample_playing_room_2req "p2" 9 = .ok (room2, started)
          ∧ (started = true
              ↔ sample_playing_room_2req.players.length / 2 + 1
                  ≤ wants_to_vote_count (set_wants_to_vote sample_playing_room_2req.players "p2"))
          ∧ (room2.phase = RoomPhase.voting
              ↔ sample_playing_room_2req.players.length / 2 + 1
                  ≤ wants_to_vote_count (set_wants_to_vote sample_playing_room_2req.players "p2")))) :=
  ⟨⟨rfl, by decide, rfl, by decide,
    request_voting_threshold sample_playing_room_1req "p2" _ 9 rfl (by decide) rfl⟩,
   ⟨rfl, by decide, rfl, by decide,
    request_voting_threshold sample_playing_room_2req "p2" _ 9 rfl (by decide) rfl⟩⟩

/-- Claim C10: when the requested username equals an existing player's
username (first match in insertion order), `join_room` attaches the
connection to that player's id with neither the password check nor the
capacity check applied — the conclusion holds for every supplied password and
for full rooms alike — and no new player is created; when no username
matches, the password check and then the capacity check are applied. -/
theorem join_room_existing_username_reconnects (room : Room)
    (room_id uname : String) (password : Option String) (fresh_id : String)
    (hrid : room_id ≠ "") (hu : uname ≠ "") :
    (∀ pid p, room.players.find? (fun kv => kv.2.username == uname) = some (pid, p) →
        join_room_handler (some room) (some room_id) (some uname) password fresh_id
          = .reconnect pid)
    ∧ (room.players.find? (fun kv => kv.2.username == uname) = none →
        password_rejects room.settings.password password = true →
        join_room_handler (some room) (some room_id) (some uname) password fresh_id
          = .errorEvent "Invalid password")
    ∧ (room.players.find? (fun kv => kv.2.username == uname) = none →
        password_rejects room.settings.password password = false →
        room.settings.max_players ≤ room.players.length →
        join_room_handler (some room) (some room_id) (some uname) password fresh_id
          = .errorEvent "Room is full") := by
  refine ⟨?_, ?_, ?_⟩
  · intro pid p hfind
    simp only [join_room_handler, Option.getD_some, hrid, hu, or_self, if_false, hfind,
      eq_self_iff_true, ite_false, false_or]
  · intro hfind hpw
    simp only [join_room_handler, Option.getD_some, hrid, hu, or_self, if_false, hfind,
      hpw, ite_true, eq_self_iff_true, ite_false]
  · intro hfind hpw hcap
    simp only [join_room_handler, Option.getD_some, hrid, hu, or_self, if_false, hfind,
      hpw, Bool.false_eq_true, ite_false, eq_self_iff_true]
    rw [if_pos hcap]

/-- Witness for `join_room_existing_username_reconnects`: joining the full,
password-protected room as Alice with a wrong password still reconnects to
Alice's existing player id q2 (both rejection conditions hold concretely,
yet neither fires). -/
theorem join_room_existing_username_reconnects_witness :
    ("w1" : String) ≠ "" ∧ ("Alice" : String) ≠ ""
    ∧ sample_locked_room.players.find? (fun kv => kv.2.username == "Alice")
        = some ("q2", { id := "q2", username := "Alice" })
    ∧ password_rejects sample_locked_room.settings.password (some "bad") = true
    ∧ sample_locked_room.settings.max_players ≤ sample_locked_room.players.length
    ∧ join_room_handler (some sample_locked_room) (some "w1") (some "Alice")
        (some "bad") "f9" = .reconnect "q2" :=
  ⟨by decide, by decide, by decide, by decide, by decide,
   (join_room_existing_username_reconnects sample_locked_room "w1" "Alice"
      (some "bad") "f9" (by decide) (by decide)).1 "q2"
      { id := "q2", username := "Alice" } (by decide)⟩


theorem vote_step_some (acc : List (String × Nat)) (x : String × Player) (t : String)
    (h : x.2.vote = some t) :
    vote_step acc x = if t = "" then acc else bump_vote acc t := by
  unfold vote_step
  rw [h]

theorem vote_step_none (acc : List (String × Nat)) (x : String × Player)
    (h : x.2.vote = none) : vote_step acc x = acc := by
  unfold vote_step
  rw [h]

theorem count_votes_eq_nil (ps : List (String × Player))
    (h : ∀ kv ∈ ps, kv.2.vote = none) : count_votes ps = [] := by
  unfold count_votes
  induction ps with
  | nil => rfl
  | cons x xs ih =>
    have hx := h x (List.mem_cons_self _ _)
    rw [List.foldl_cons]
    rw [vote_step_none [] x hx]
    exact ih (fun kv hkv => h kv (List.mem_cons_of_mem _ hkv))

theorem bump_vote_ne_nil (acc : List (String × Nat)) (t : String) :
    bump_vote acc t ≠ [] := by
  unfold bump_vote
  split
  · next h =>
    intro hmap
    rw [List.map_eq_nil_iff] at hmap
    rw [hmap] at h
    simp [List.any_nil] at h
  · simp

theorem vote_step_ne_nil (acc : List (String × Nat)) (x : String × Player)
    (h : acc ≠ []) : vote_step acc x ≠ [] := by
  cases hv : x.2.vote with
  | none => rw [vote_step_none acc x hv]; exact h
  | some t =>
    rw [vote_step_some acc x t hv]
    by_cases ht : t = ""
    · rw [if_pos ht]; exact h
    · rw [if_neg ht]; exact bump_vote_ne_nil acc t

theorem foldl_vote_step_ne_nil (ps : List (String × Player)) :
    ∀ acc, (acc ≠ [] ∨ ∃ kv ∈ ps, ∃ t, kv.2.vote = some t ∧ t ≠ "") →
      ps.foldl vote_step acc ≠ [] := by
  induction ps with
  | nil =>
    intro acc h
    rcases h with h | ⟨kv, hkv, _⟩
    · exact h
    · cases hkv
  | cons x xs ih =>
    intro acc h
    rw [List.foldl_cons]
    apply ih
    rcases h with h | ⟨kv, hkv, t, ht, htne⟩
    · exact Or.inl (vote_step_ne_nil acc x h)
    · rcases List.mem_cons.mp hkv with rfl | hkvs
      · left
        rw [vote_step_some acc kv t ht, if_neg htne]
        exact bump_vote_ne_nil acc t
      · exact Or.inr ⟨kv, hkvs, t, ht, htne⟩

theorem count_votes_ne_nil (ps : List (String × Player))
    (h : ∃ kv ∈ ps, ∃ t, kv.2.vote = some t ∧ t ≠ "") : count_votes ps ≠ [] :=
  foldl_vote_step_ne_nil ps [] (Or.inr h)

theorem mem_keys_bump_vote (acc : List (String × Nat)) (t : String) (k : String)
    (h : k ∈ (bump_vote acc t).map Prod.fst) :
    k ∈ acc.map Prod.fst ∨ k = t := by
  unfold bump_vote at h
  split at h
  · obtain ⟨kv0, hkv0, hk⟩ := List.mem_map.mp h
    obtain ⟨kv1, hkv1, hkv0e⟩ := List.mem_map.mp hkv0
    left
    rw [← hk, ← hkv0e]
    have : (if kv1.1 == t then (kv1.1, kv1.2 + 1) else kv1).1 = kv1.1 := by
      split <;> rfl
    rw [this]
    exact List.mem_map_of_mem _ hkv1
  · rw [List.map_append] at h
    rcases List.mem_append.mp h with h1 | h2
    · exact Or.inl h1
    · right
      simpa using h2

theorem mem_keys_vote_step (acc : List (String × Nat)) (x : String × Player) (k : String)
    (h : k ∈ (vote_step acc x).map Prod.fst) :
    k ∈ acc.map Prod.fst ∨ x.2.vote = some k := by
  cases hv : x.2.vote with
  | none => rw [vote_step_none acc x hv] at h; exact Or.inl h
  | some t =>
    rw [vote_step_some acc x t hv] at h
    by_cases ht : t = ""
    · rw [if_pos ht] at h; exact Or.inl h
    · rw [if_neg ht] at h
      rcases mem_keys_bump_vote acc t k h with h1 | rfl
      · exact Or.inl h1
      · exact Or.inr rfl

theorem mem_foldl_vote_step (ps : List (String × Player)) :
    ∀ acc (kv : String × Nat), kv ∈ ps.foldl vote_step acc →
      kv.1 ∈ acc.map Prod.fst ∨ ∃ q ∈ ps, q.2.vote = some kv.1 := by
  induction ps with
  | nil =>
    intro acc kv h
    exact Or.inl (List.mem_map_of_mem _ h)
  | cons x xs ih =>
    intro acc kv h
    rw [List.foldl_cons] at h
    rcases ih _ kv h with h1 | ⟨q, hq, hv⟩
    · rcases mem_keys_vote_step acc x kv.1 h1 with h2 | h2
      · exact Or.inl h2
      · exact Or.inr ⟨x, List.mem_cons_self _ _, h2⟩
    · exact Or.inr ⟨q, List.mem_cons_of_mem _ hq, hv⟩

theorem count_votes_keys (ps : List (String × Player)) (kv : String × Nat)
    (h : kv ∈ count_votes ps) : ∃ q ∈ ps, q.2.vote = some kv.1 := by
  rcases mem_foldl_vote_step ps [] kv h with h1 | h1
  · cases h1
  · exact h1

theorem le_foldl_max_init (l : List Nat) : ∀ a, a ≤ l.foldl max a := by
  induction l with
  | nil => intro a; exact le_refl a
  | cons y ys ih =>
    intro a
    rw [List.foldl_cons]
    exact le_trans (le_max_left a y) (ih (max a y))

theorem foldl_max_le (l : List Nat) : ∀ a x, x ∈ l → x ≤ l.foldl max a := by
  induction l with
  | nil => intro a x h; cases h
  | cons y ys ih =>
    intro a x h
    rw [List.foldl_cons]
    rcases List.mem_cons.mp h with rfl | h2
    · exact le_trans (le_max_right a x) (le_foldl_max_init ys (max a x))
    · exact ih (max a y) x h2

theorem foldl_max_mem (l : List Nat) : ∀ a, l.foldl max a = a ∨ l.foldl max a ∈ l := by
  induction l with
  | nil => intro a; exact Or.inl rfl
  | cons y ys ih =>
    intro a
    rw [List.foldl_cons]
    rcases ih (max a y) with h | h
    · rcases max_choice a y with hm | hm
      · rw [hm] at h ⊢
        exact Or.inl h
      · rw [hm] at h ⊢
        refine Or.inr ?_
        rw [h]
        exact List.mem_cons_self _ _
    · exact Or.inr (List.mem_cons_of_mem _ h)

theorem max_count_attained (vc : List (String × Nat)) (h : vc ≠ []) :
    ∃ kv ∈ vc, kv.2 = max_count vc := by
  match vc, h with
  | v :: vs, _ =>
    unfold max_count
    rw [List.map_cons, List.foldl_cons, Nat.zero_max]
    rcases foldl_max_mem (vs.map Prod.snd) v.2 with h1 | h1
    · exact ⟨v, List.mem_cons_self _ _, h1.symm⟩
    · obtain ⟨kv, hkv, hkv2⟩ := List.mem_map.mp h1
      exact ⟨kv, List.mem_cons_of_mem _ hkv, by rw [hkv2]⟩

theorem le_max_count (vc : List (String × Nat)) (kv : String × Nat) (h : kv ∈ vc) :
    kv.2 ≤ max_count vc :=
  foldl_max_le (vc.map Prod.snd) 0 kv.2 (List.mem_map_of_mem _ h)



theorem find_player_exists (ps : List (String × Player)) (pid : String)
    (h : ∃ q ∈ ps, q.1 = pid) : ∃ p, find_player ps pid = some p := by
  unfold find_player
  obtain ⟨q, hq, hq1⟩ := h
  have hs : (ps.find? (fun kv => kv.1 == pid)).isSome := by
    rw [List.find?_isSome]
    exact ⟨q, hq, by simp [hq1]⟩
  obtain ⟨kv, hkv⟩ := Option.isSome_iff_exists.mp hs
  exact ⟨kv.2, by rw [hkv]; rfl⟩

theorem username_lower_eq (ps : List (String × Player)) (pid : String) (p : Player)
    (h : find_player ps pid = some p) :
    username_lower ps pid = p.username.toLower := by
  unfold username_lower
  rw [h]
  rfl

theorem mapM_decorate_ok (ps : List (String × Player)) :
    ∀ (l : List String), (∀ pid ∈ l, ∃ p, find_player ps pid = some p) →
      l.mapM (decorate_key ps)
        = Except.ok (l.map (fun pid => (pid, username_lower ps pid))) := by
  intro l
  induction l with
  | nil => intro _; rfl
  | cons x xs ih =>
    intro h
    obtain ⟨p, hp⟩ := h x (List.mem_cons_self _ _)
    have hx : decorate_key ps x = Except.ok (x, p.username.toLower) := by
      unfold decorate_key
      rw [hp]
    rw [List.mapM_cons, hx, ih (fun pid hpid => h pid (List.mem_cons_of_mem _ hpid))]
    rw [List.map_cons, username_lower_eq ps x p hp]
    rfl

theorem mergeSort_head_min (l : List (String × String)) (m : String × String)
    (rest : List (String × String))
    (hsort : l.mergeSort (fun a b => decide (a.2 ≤ b.2)) = m :: rest)
    (x : String × String) (hx : x ∈ l) : m.2 ≤ x.2 := by
  have htrans : ∀ a b c : String × String,
      (fun a b : String × String => decide (a.2 ≤ b.2)) a b = true →
      (fun a b : String × String => decide (a.2 ≤ b.2)) b c = true →
      (fun a b : String × String => decide (a.2 ≤ b.2)) a c = true := by
    intro a b c hab hbc
    exact decide_eq_true (le_trans (of_decide_eq_true hab) (of_decide_eq_true hbc))
  have htotal : ∀ a b : String × String,
      ((fun a b : String × String => decide (a.2 ≤ b.2)) a b
        || (fun a b : String × String => decide (a.2 ≤ b.2)) b a) = true := by
    intro a b
    show (decide (a.2 ≤ b.2) || decide (b.2 ≤ a.2)) = true
    rcases le_total a.2 b.2 with h | h
    · rw [decide_eq_true h]
      rfl
    · rw [decide_eq_true h]
      simp
  have hs := List.sorted_mergeSort htrans htotal l
  rw [hsort] at hs
  have hx2 : x ∈ m :: rest := by
    rw [← hsort]
    exact List.mem_mergeSort.mpr hx
  rcases List.mem_cons.mp hx2 with rfl | hxr
  · exact le_refl _
  · exact of_decide_eq_true ((List.pairwise_cons.mp hs).1 x hxr)

theorem mem_most_voted0 (vc : List (String × Nat)) (pid : String) :
    pid ∈ (vc.filter (fun kv => kv.2 == max_count vc)).map (fun kv => kv.1)
      ↔ (pid, max_count vc) ∈ vc := by
  constructor
  · intro h
    obtain ⟨kv, hkv, hk⟩ := List.mem_map.mp h
    have hf := List.mem_filter.mp hkv
    have h2 : kv.2 = max_count vc := by simpa using hf.2
    have hkveq : kv = (pid, max_count vc) := by
      rw [← hk, ← h2]
    exact hkveq ▸ hf.1
  · intro h
    exact List.mem_map.mpr ⟨(pid, max_count vc), List.mem_filter.mpr ⟨h, by simp⟩, rfl⟩



theorem pick_most_voted_spec (ps : List (String × Player)) (vc : List (String × Nat))
    (hvc : vc ≠ [])
    (hfind : ∀ kv ∈ vc, ∃ q ∈ ps, q.1 = kv.1) :
    ∃ m rest, pick_most_voted ps vc = .ok (m :: rest)
      ∧ (m, max_count vc) ∈ vc
      ∧ ∀ kv ∈ vc, kv.2 = max_count vc →
          username_lower ps m ≤ username_lower ps kv.1 := by
  have hmv0_ne : (vc.filter (fun kv => kv.2 == max_count vc)).map (fun kv => kv.1) ≠ [] := by
    obtain ⟨kv, hkv, hk2⟩ := max_count_attained vc hvc
    intro hnil
    have hm : kv.1 ∈ (vc.filter (fun kv => kv.2 == max_count vc)).map (fun kv => kv.1) :=
      List.mem_map.mpr ⟨kv, List.mem_filter.mpr ⟨hkv, by simp [hk2]⟩, rfl⟩
    rw [hnil] at hm
    cases hm
  have hmemmax : ∀ kv ∈ vc, kv.2 = max_count vc →
      kv.1 ∈ (vc.filter (fun kv => kv.2 == max_count vc)).map (fun kv => kv.1) := by
    intro kv hkv hk2
    exact List.mem_map.mpr ⟨kv, List.mem_filter.mpr ⟨hkv, by simp [hk2]⟩, rfl⟩
  have hfind2 : ∀ pid ∈ (vc.filter (fun kv => kv.2 == max_count vc)).map (fun kv => kv.1),
      ∃ p, find_player ps pid = some p := by
    intro pid hpid
    have hv := (mem_most_voted0 vc pid).mp hpid
    obtain ⟨q, hq, hq1⟩ := hfind (pid, max_count vc) hv
    exact find_player_exists ps pid ⟨q, hq, hq1⟩
  unfold pick_most_voted
  dsimp only
  by_cases hlen : 1 < ((vc.filter (fun kv => kv.2 == max_count vc)).map (fun kv => kv.1)).length
  · rw [if_pos hlen, mapM_decorate_ok ps _ hfind2]
    obtain ⟨m2, rest2, hsort⟩ :
        ∃ m2 rest2, (((vc.filter (fun kv => kv.2 == max_count vc)).map (fun kv => kv.1)).map
            (fun pid => (pid, username_lower ps pid))).mergeSort
              (fun a b => decide (a.2 ≤ b.2)) = m2 :: rest2 := by
      cases hs : (((vc.filter (fun kv => kv.2 == max_count vc)).map (fun kv => kv.1)).map
          (fun pid => (pid, username_lower ps pid))).mergeSort (fun a b => decide (a.2 ≤ b.2)) with
      | nil =>
        exfalso
        have hlen0 := congrArg List.length hs
        rw [List.length_mergeSort, List.length_map, List.length_nil] at hlen0
        exact hmv0_ne (List.length_eq_zero.mp hlen0)
      | cons a b => exact ⟨a, b, rfl⟩
    have hm2mem : m2 ∈ (((vc.filter (fun kv => kv.2 == max_count vc)).map (fun kv => kv.1)).map
        (fun pid => (pid, username_lower ps pid))) := by
      have hself : m2 ∈ m2 :: rest2 := List.mem_cons_self _ _
      rw [← hsort] at hself
      exact List.mem_mergeSort.mp hself
    obtain ⟨pid2, hpid2, hm2⟩ := List.mem_map.mp hm2mem
    refine ⟨m2.1, rest2.map (fun kv => kv.1), ?_, ?_, ?_⟩
    · dsimp only
      rw [hsort, List.map_cons]
    · have h1 : m2.1 = pid2 := by rw [← hm2]
      rw [h1]
      exact (mem_most_voted0 vc pid2).mp hpid2
    · intro kv hkv hk2
      have hkey : (kv.1, username_lower ps kv.1) ∈
          (((vc.filter (fun kv => kv.2 == max_count vc)).map (fun kv => kv.1)).map
            (fun pid => (pid, username_lower ps pid))) :=
        List.mem_map.mpr ⟨kv.1, hmemmax kv hkv hk2, rfl⟩
      have hle := mergeSort_head_min _ m2 rest2 hsort _ hkey
      have hm2snd : m2.2 = username_lower ps m2.1 := by
        rw [← hm2]
      rw [hm2snd] at hle
      exact hle
  · rw [if_neg hlen]
    cases hmv : (vc.filter (fun kv => kv.2 == max_count vc)).map (fun kv => kv.1) with
    | nil => exact absurd hmv hmv0_ne
    | cons m rest =>
      cases rest with
      | cons a b =>
        exfalso
        rw [hmv] at hlen
        simp at hlen
      | nil =>
        refine ⟨m, [], rfl, ?_, ?_⟩
        · have hmm : m ∈ (vc.filter (fun kv => kv.2 == max_count vc)).map (fun kv => kv.1) := by
            rw [hmv]
            exact List.mem_cons_self _ _
          exact (mem_most_voted0 vc m).mp hmm
        · intro kv hkv hk2
          have hmm : kv.1 ∈ (vc.filter (fun kv => kv.2 == max_count vc)).map (fun kv => kv.1) :=
            hmemmax kv hkv hk2
          rw [hmv] at hmm
          rcases List.mem_cons.mp hmm with rfl | h0
          · exact le_refl _
          · cases h0



/-- Claim C3: in the VOTING phase, when no player has a vote recorded,
`calculate_results` sets result to impostor_wins with `most_voted_id = none`
and moves the phase to RESULTS; otherwise it returns some most-voted id `m`
that attains the maximum tally and whose lowercased username is least among
the targets tied at the maximum, sets result to civilians_win exactly when
`m` is the impostor and impostor_wins otherwise, and moves the phase to
RESULTS.  The hypotheses state the data-model invariants: ids are non-empty
and every recorded vote references an existing player. -/
theorem calculate_results_spec (room : Room) (gs : GameState) (now : Nat)
    (hphase : room.phase = RoomPhase.voting)
    (hgs : room.game_state = some gs)
    (hids : ∀ kv ∈ room.players, kv.1 ≠ "")
    (htargets : room.players.all (fun kv =>
        match kv.2.vote with
        | some t => room.players.any (fun q => q.1 == t)
        | none => true) = true) :
    ((∀ kv ∈ room.players, kv.2.vote = none) →
      calculate_results room now
        = .ok { room with phase := RoomPhase.results, game_state := some { gs with result := some GameResult.impostor_wins, most_voted_id := none, phase_start_time := now } })
    ∧ ((∃ kv ∈ room.players, kv.2.vote ≠ none) →
      ∃ m, (m, max_count (count_votes room.players)) ∈ count_votes room.players
        ∧ (∀ kv ∈ count_votes room.players, kv.2 ≤ max_count (count_votes room.players))
        ∧ (∀ kv ∈ count_votes room.players, kv.2 = max_count (count_votes room.players) →
            username_lower room.players m ≤ username_lower room.players kv.1)
        ∧ calculate_results room now
            = .ok { room with phase := RoomPhase.results, game_state := some { gs with most_voted_id := some m, result := some (if m = gs.impostor_id then GameResult.civilians_win else GameResult.impostor_wins), phase_start_time := now } }) := by
  have htargets2 : ∀ kv ∈ room.players, ∀ t, kv.2.vote = some t →
      ∃ q ∈ room.players, q.1 = t := by
    intro kv hkv t ht
    have hall := List.all_eq_true.mp htargets kv hkv
    simp only [ht] at hall
    obtain ⟨q, hq, hq1⟩ := List.any_eq_true.mp hall
    exact ⟨q, hq, by simpa using hq1⟩
  constructor
  · intro hnone
    have hvc := count_votes_eq_nil _ hnone
    unfold calculate_results
    rw [if_neg (show ¬ room.phase ≠ RoomPhase.voting from fun h => h hphase)]
    dsimp only
    rw [hgs]
    dsimp only
    rw [hvc]
    rfl
  · rintro ⟨kv0, hkv0, hv0⟩
    obtain ⟨t0, ht0⟩ := Option.ne_none_iff_exists'.mp hv0
    obtain ⟨q0, hq0, hq01⟩ := htargets2 kv0 hkv0 t0 ht0
    have ht0ne : t0 ≠ "" := hq01 ▸ hids q0 hq0
    have hvcne : count_votes room.players ≠ [] :=
      count_votes_ne_nil _ ⟨kv0, hkv0, t0, ht0, ht0ne⟩
    have hfind : ∀ kv ∈ count_votes room.players, ∃ q ∈ room.players, q.1 = kv.1 := by
      intro kv hkv
      obtain ⟨q, hq, hv⟩ := count_votes_keys _ kv hkv
      exact htargets2 q hq kv.1 hv
    obtain ⟨m, rest, hpick, hmem, hmin⟩ :=
      pick_most_voted_spec room.players (count_votes room.players) hvcne hfind
    refine ⟨m, hmem, (fun kv hkv => le_max_count _ kv hkv), hmin, ?_⟩
    have hempty : ¬ ((count_votes room.players).isEmpty = true) :=
      fun h => hvcne (List.isEmpty_iff.mp h)
    unfold calculate_results
    rw [if_neg (show ¬ room.phase ≠ RoomPhase.voting from fun h => h hphase)]
    dsimp only
    rw [hgs]
    dsimp only
    rw [if_neg hempty, hpick]

/-- Witness for `calculate_results_spec`: the concrete five-player VOTING
room with tallies p3 ↦ 2, p1 ↦ 2, p5 ↦ 1; the tie at 2 is broken by
lowercased usernames (bob < zoe), and p3 is not the impostor, so the
impostor wins. -/
theorem calculate_results_spec_witness :
    sample_voting_room.phase = RoomPhase.voting
    ∧ sample_voting_room.game_state
        = some { word := "cat", impostor_id := "p1", phase_start_time := 0 }
    ∧ (∀ kv ∈ sample_voting_room.players, kv.1 ≠ "")
    ∧ sample_voting_room.players.all (fun kv =>
        match kv.2.vote with
        | some t => sample_voting_room.players.any (fun q => q.1 == t)
        | none => true) = true
    ∧ (∃ kv ∈ sample_voting_room.players, kv.2.vote ≠ none)
    ∧ (∃ m, (m, max_count (count_votes sample_voting_room.players))
          ∈ count_votes sample_voting_room.players
        ∧ (∀ kv ∈ count_votes sample_voting_room.players,
            kv.2 ≤ max_count (count_votes sample_voting_room.players))
        ∧ (∀ kv ∈ count_votes sample_voting_room.players,
            kv.2 = max_count (count_votes sample_voting_room.players) →
            username_lower sample_voting_room.players m
              ≤ username_lower sample_voting_room.players kv.1)
        ∧ calculate_results sample_voting_room 7
            = .ok { sample_voting_room with phase := RoomPhase.results, game_state := some { word := "cat", impostor_id := "p1", phase_start_time := 7, votes_submitted := 0, result := some (if m = "p1" then GameResult.civilians_win else GameResult.impostor_wins), most_voted_id := some m } }) :=
  ⟨rfl, rfl, by decide, by decide, by decide,
   (calculate_results_spec sample_voting_room
      { word := "cat", impostor_id := "p1", phase_start_time := 0 } 7 rfl rfl
      (by decide) (by decide)).2 (by decide)⟩

end RatApi
